import Mathlib

/-!
Verification of the numerical/control core of the astro-sandbox repository.

Two source files are embedded:
* `src/rocketv1.py` — powered Mars descent: a `PIDController` with integral
  clamping and a `RocketSimulation` advanced by `update_physics` (semi-implicit
  Euler, fuel depletion, ground contact).  All arithmetic there is rational,
  so the embedding uses `ℚ` and is fully computable.
* `src/Homman.py` — a 2-D orbital Hohmann-transfer simulator: `Spacecraft`
  with gravity propagation and prograde impulses, the pure planner
  `calculate_hohmann_deltas`, and the manual two-impulse trigger state machine
  of `main`'s event loop.  These use `math.sqrt`, so the embedding uses `ℝ`.

Python operations that raise (`ZeroDivisionError` from `/ 0`) are embedded as
`Option`-valued functions returning `none` at exactly the raising inputs.
-/

namespace Rocketv1

/-- Module constant `GRAVITY_MARS = 3.71` of src/rocketv1.py. -/
def GRAVITY_MARS : ℚ := 371 / 100

/-- Module constant `ATM_DENSITY_MARS = 0.020` of src/rocketv1.py. -/
def ATM_DENSITY_MARS : ℚ := 1 / 50

/-- Module constant `ISP = 300` of src/rocketv1.py. -/
def ISP : ℚ := 300

/-- Module constant `G0 = 9.80665` of src/rocketv1.py. -/
def G0 : ℚ := 980665 / 100000

/-- State of `PIDController` (src/rocketv1.py): gains, setpoint, accumulated
integral and previous error. -/
structure PIDController where
  kp : ℚ
  ki : ℚ
  kd : ℚ
  setpoint : ℚ
  integral : ℚ
  prev_error : ℚ
  deriving DecidableEq, Repr

/-- `PIDController.__init__(kp, ki, kd, setpoint)`: integral and previous
error start at 0. -/
def PIDController.init (kp ki kd setpoint : ℚ) : PIDController :=
  ⟨kp, ki, kd, setpoint, 0, 0⟩

/-- `PIDController.compute(current_val, dt)` (src/rocketv1.py lines 18-26).
The integral is accumulated and clamped with
`max(-100, min(integral + error*dt, 100))`; the derivative divides by `dt`,
so Python raises `ZeroDivisionError` when `dt = 0`: that raising call is
embedded as `none`.  On success the result is the output together with the
updated controller state. -/
def PIDController.compute (p : PIDController) (current_val dt : ℚ) :
    Option (ℚ × PIDController) :=
  if dt = 0 then none
  else
    let error := p.setpoint - current_val
    let integral := max (-100) (min (p.integral + error * dt) 100)
    let derivative := (error - p.prev_error) / dt
    let output := p.kp * error + p.ki * integral + p.kd * derivative
    some (output, { p with integral := integral, prev_error := error })

/-- `RocketSimulation` mutable state (src/rocketv1.py lines 29-37): altitude
`y`, velocity `v`, dry mass, fuel mass and the stored thrust attribute. -/
structure RocketSimulation where
  y : ℚ
  v : ℚ
  m_dry : ℚ
  m_fuel : ℚ
  thrust : ℚ
  deriving DecidableEq, Repr

/-- Instance constant `self.max_thrust = 15000.0` set in
`RocketSimulation.__init__` and never modified. -/
def max_thrust : ℚ := 15000

/-- Instance constant `self.area = 10.0` set in `RocketSimulation.__init__`. -/
def area : ℚ := 10

/-- Instance constant `self.cd = 0.5` set in `RocketSimulation.__init__`. -/
def cd : ℚ := 1 / 2

/-- `RocketSimulation.__init__(altitude, velocity, dry_mass, fuel_mass)`:
the stored thrust starts at 0. -/
def RocketSimulation.init (altitude velocity dry_mass fuel_mass : ℚ) :
    RocketSimulation :=
  ⟨altitude, velocity, dry_mass, fuel_mass, 0⟩

/-- The thrust stored by `update_physics` step 1 (lines 45-47): clamp the
command to `[0, max_thrust]`, then force it to 0 when `m_fuel <= 0`. -/
def stepThrust (s : RocketSimulation) (u_cmd : ℚ) : ℚ :=
  if s.m_fuel ≤ 0 then 0 else max 0 (min u_cmd max_thrust)

/-- `total_mass = self.m_dry + self.m_fuel` (line 49). -/
def totalMass (s : RocketSimulation) : ℚ :=
  s.m_dry + s.m_fuel

/-- The fuel mass after `update_physics` lines 51-52:
`m_fuel = max(0, m_fuel - (thrust / (ISP * G0)) * dt)`. -/
def stepFuel (s : RocketSimulation) (u_cmd dt : ℚ) : ℚ :=
  max 0 (s.m_fuel - stepThrust s u_cmd / (ISP * G0) * dt)

/-- The acceleration of `update_physics` lines 55-58: quadratic drag
`-0.5 * rho * v * |v| * cd * area`, weight `-total_mass * GRAVITY_MARS`,
thrust, divided by the total mass.  In Lean division by zero yields 0; in
Python `total_mass = 0` would raise, but the data-model invariant
`0 < m_dry` (hence `0 < total_mass`) excludes it, and no claim settled here
depends on that degenerate case. -/
def stepAccel (s : RocketSimulation) (u_cmd : ℚ) : ℚ :=
  let drag := -(1 / 2) * ATM_DENSITY_MARS * s.v * |s.v| * cd * area
  let gravity_force := -(totalMass s) * GRAVITY_MARS
  (gravity_force + drag + stepThrust s u_cmd) / totalMass s

/-- Semi-implicit Euler velocity update (line 61): `v += acceleration * dt`. -/
def stepVel (s : RocketSimulation) (u_cmd dt : ℚ) : ℚ :=
  s.v + stepAccel s u_cmd * dt

/-- Semi-implicit Euler altitude update (line 62), using the already-updated
velocity: `y += v * dt`. -/
def stepAlt (s : RocketSimulation) (u_cmd dt : ℚ) : ℚ :=
  s.y + stepVel s u_cmd dt * dt

/-- `RocketSimulation.update_physics(u_cmd, dt)` (src/rocketv1.py lines
39-67).  If the altitude is already `<= 0` the call returns `False` and
changes nothing.  Otherwise thrust, fuel, forces and the semi-implicit Euler
step are applied; when the new altitude is strictly negative it is clamped to
0 and the velocity zeroed.  The function then returns `True` (the final
`return True` of the Python body runs on the clamping call as well). -/
def RocketSimulation.update_physics (s : RocketSimulation) (u_cmd dt : ℚ) :
    RocketSimulation × Bool :=
  if s.y ≤ 0 then (s, false)
  else
    let s1 : RocketSimulation :=
      { y := stepAlt s u_cmd dt
        v := stepVel s u_cmd dt
        m_dry := s.m_dry
        m_fuel := stepFuel s u_cmd dt
        thrust := stepThrust s u_cmd }
    if s1.y < 0 then ({ s1 with y := 0, v := 0 }, true) else (s1, true)

/-- Iterate `update_physics` over a list of `(u_cmd, dt)` calls, returning the
final state and the list of boolean return values, in call order. -/
def runPhysics (s : RocketSimulation) (calls : List (ℚ × ℚ)) :
    RocketSimulation × List Bool :=
  match calls with
  | [] => (s, [])
  | c :: rest =>
      let r := s.update_physics c.1 c.2
      let rr := runPhysics r.1 rest
      (rr.1, r.2 :: rr.2)

end Rocketv1

namespace Homman

/-- Module constant `MU = 1000000` of src/Homman.py. -/
def MU : ℝ := 1000000

/-- Module constant `R_INNER = 100` of src/Homman.py. -/
def R_INNER : ℝ := 100

/-- Module constant `R_OUTER = 300` of src/Homman.py. -/
def R_OUTER : ℝ := 300

/-- Module constant `CENTER = (WIDTH // 2, HEIGHT // 2) = (400, 300)` of
src/Homman.py. -/
def CENTER : ℝ × ℝ := (400, 300)

/-- `Spacecraft` state (src/Homman.py lines 13-19): position, velocity and
the `orbit_path` trail list. -/
structure Spacecraft where
  x : ℝ
  y : ℝ
  vx : ℝ
  vy : ℝ
  orbit_path : List (ℝ × ℝ)

/-- `Spacecraft.__init__(x, y, vx, vy)`: the trail starts empty. -/
def Spacecraft.init (x y vx vy : ℝ) : Spacecraft :=
  ⟨x, y, vx, vy, []⟩

/-- `Spacecraft.update(dt)` (src/Homman.py lines 21-45): inverse-square
gravity toward `CENTER`, semi-implicit Euler (velocity first, then position
with the updated velocity), then append the new position to `orbit_path` and
drop the oldest entry (`pop(0)`) when the trail exceeds 300 entries.
In Lean division by zero yields 0 where Python would raise at
`r_mag = 0`; that point is excluded by the simulation geometry and no claim
settled here depends on it. -/
noncomputable def Spacecraft.update (s : Spacecraft) (dt : ℝ) : Spacecraft :=
  let rx := s.x - CENTER.1
  let ry := s.y - CENTER.2
  let r_mag_sq := rx ^ 2 + ry ^ 2
  let r_mag := Real.sqrt r_mag_sq
  let acc_mag := -MU / (r_mag_sq * r_mag)
  let vx := s.vx + acc_mag * rx * dt
  let vy := s.vy + acc_mag * ry * dt
  let x := s.x + vx * dt
  let y := s.y + vy * dt
  let path := s.orbit_path ++ [(x, y)]
  { x := x, y := y, vx := vx, vy := vy
    orbit_path := if 300 < path.length then path.drop 1 else path }

/-- `Spacecraft.apply_prograde_impulse(delta_v)` (src/Homman.py lines 47-54):
divide the velocity by its magnitude to get the unit direction and add
`delta_v` along it.  When the magnitude is 0 Python raises
`ZeroDivisionError`; that raising call is embedded as `none`. -/
noncomputable def Spacecraft.apply_prograde_impulse (s : Spacecraft)
    (delta_v : ℝ) : Option Spacecraft :=
  let v_mag := Real.sqrt (s.vx ^ 2 + s.vy ^ 2)
  if v_mag = 0 then none
  else some { s with vx := s.vx + s.vx / v_mag * delta_v
                     vy := s.vy + s.vy / v_mag * delta_v }

/-- `calculate_hohmann_deltas()` (src/Homman.py lines 56-74).  The Python
function reads the module constants `MU`, `R_INNER`, `R_OUTER`; they are
passed here explicitly (the body is otherwise the source's, line for line),
so the source call is `calculate_hohmann_deltas MU R_INNER R_OUTER`. -/
noncomputable def calculate_hohmann_deltas (mu r_inner r_outer : ℝ) : ℝ × ℝ :=
  let v_inner_circ := Real.sqrt (mu / r_inner)
  let v_outer_circ := Real.sqrt (mu / r_outer)
  let a_transfer := (r_inner + r_outer) / 2
  let v_transfer_periapsis := Real.sqrt (mu * (2 / r_inner - 1 / a_transfer))
  let v_transfer_apoapsis := Real.sqrt (mu * (2 / r_outer - 1 / a_transfer))
  (v_transfer_periapsis - v_inner_circ, v_outer_circ - v_transfer_apoapsis)

/-- The closed-form vis-viva solution written exactly as the spec states it:
`dv1 = sqrt(mu*(2/r_inner - 2/(r_inner+r_outer))) - sqrt(mu/r_inner)` and
`dv2 = sqrt(mu/r_outer) - sqrt(mu*(2/r_outer - 2/(r_inner+r_outer)))`.
Used only to compare the source computation against the spec's formula. -/
noncomputable def hohmann_deltas_closed_form (mu r_inner r_outer : ℝ) :
    ℝ × ℝ :=
  (Real.sqrt (mu * (2 / r_inner - 2 / (r_inner + r_outer))) -
      Real.sqrt (mu / r_inner),
    Real.sqrt (mu / r_outer) -
      Real.sqrt (mu * (2 / r_outer - 2 / (r_inner + r_outer))))

/-- Keyboard events reaching `main`'s handler (src/Homman.py lines 104-112):
the key `1`, the key `2`, or anything else. -/
inductive Key where
  | k1 : Key
  | k2 : Key
  | other : Key
  deriving DecidableEq, Repr

/-- The two planned impulses of the mission. -/
inductive Impulse where
  | injection : Impulse
  | circularization : Impulse
  deriving DecidableEq, Repr

/-- One iteration of `main`'s manual-trigger handler (src/Homman.py lines
104-112) as a step on the `stage` integer: key `1` in stage 0 applies the
injection impulse `dv1` and moves to stage 1; key `2` in stage 1 applies the
circularization impulse `dv2` and moves to stage 2; every other combination
leaves the stage unchanged and applies nothing.  The prograde burn on the
ship is recorded as the emitted `Impulse`. -/
def sequencerStep (stage : ℕ) (k : Key) : ℕ × Option Impulse :=
  match k with
  | .k1 => if stage = 0 then (1, some .injection) else (stage, none)
  | .k2 => if stage = 1 then (2, some .circularization) else (stage, none)
  | .other => (stage, none)

/-- Run `sequencerStep` over a list of key events, collecting every impulse
applied along the way, in order. -/
def sequencerRun (stage : ℕ) (ks : List Key) : ℕ × List Impulse :=
  match ks with
  | [] => (stage, [])
  | k :: rest =>
      let r := sequencerStep stage k
      let rr := sequencerRun r.1 rest
      (rr.1, r.2.toList ++ rr.2)

end Homman

namespace Homman

/-- One `Spacecraft.update` call keeps the trail at 300 entries or fewer
whenever it was within the bound before the call. -/
theorem update_orbit_path_le (s : Spacecraft) (dt : ℝ)
    (h : s.orbit_path.length ≤ 300) :
    (s.update dt).orbit_path.length ≤ 300 := by
  simp only [Spacecraft.update]
  split
  · simp only [List.length_drop, List.length_append, List.length_singleton]
    omega
  · rename_i hle
    simp only [List.length_append, List.length_singleton] at hle ⊢
    omega

/-- C10: for every `Spacecraft` built by `__init__` (empty trail) and every
sequence of `update` calls with arbitrary `dt` values, the `orbit_path` trail
never exceeds 300 entries. -/
theorem orbit_path_bounded (x y vx vy : ℝ) (dts : List ℝ) :
    (dts.foldl Spacecraft.update
      (Spacecraft.init x y vx vy)).orbit_path.length ≤ 300 := by
  have aux : ∀ (l : List ℝ) (s : Spacecraft),
      s.orbit_path.length ≤ 300 →
      (l.foldl Spacecraft.update s).orbit_path.length ≤ 300 := by
    intro l
    induction l with
    | nil => intro s hs; simpa using hs
    | cons d rest ih =>
        intro s hs
        exact ih _ (update_orbit_path_le s d hs)
  exact aux dts _ (by simp [Spacecraft.init])

/-- Invariant of the manual trigger machine: from any starting stage, the
injection impulse is never applied once the stage has left 0 and is applied
at most once, the circularization impulse is never applied once the stage
has passed 1 and is applied at most once, and the stage only moves forward,
never beyond 2. -/
theorem sequencerRun_inv (ks : List Key) : ∀ stage : ℕ,
    (1 ≤ stage → (sequencerRun stage ks).2.count Impulse.injection = 0) ∧
    (2 ≤ stage → (sequencerRun stage ks).2.count Impulse.circularization = 0) ∧
    (sequencerRun stage ks).2.count Impulse.injection ≤ 1 ∧
    (sequencerRun stage ks).2.count Impulse.circularization ≤ 1 ∧
    stage ≤ (sequencerRun stage ks).1 ∧
    (stage ≤ 2 → (sequencerRun stage ks).1 ≤ 2) := by
  induction ks with
  | nil =>
      intro stage
      simp [sequencerRun]
  | cons k rest ih =>
      intro stage
      cases k with
      | k1 =>
          by_cases h0 : stage = 0
          · subst h0
            obtain ⟨j1, j2, j3, j4, j5, j6⟩ := ih 1
            have hrun : sequencerRun 0 (Key.k1 :: rest) =
                ((sequencerRun 1 rest).1,
                  Impulse.injection :: (sequencerRun 1 rest).2) := by
              simp [sequencerRun, sequencerStep]
            rw [hrun]
            have hj1 := j1 (le_refl 1)
            refine ⟨by omega, by omega, ?_, ?_, by omega, fun _ => j6 (by omega)⟩
            · rw [List.count_cons_self]
              omega
            · rw [List.count_cons_of_ne (by decide)]
              exact j4
          · obtain ⟨j1, j2, j3, j4, j5, j6⟩ := ih stage
            simpa [sequencerRun, sequencerStep, h0] using
              ⟨j1, j2, j3, j4, j5, j6⟩
      | k2 =>
          by_cases h1 : stage = 1
          · subst h1
            obtain ⟨j1, j2, j3, j4, j5, j6⟩ := ih 2
            have hrun : sequencerRun 1 (Key.k2 :: rest) =
                ((sequencerRun 2 rest).1,
                  Impulse.circularization :: (sequencerRun 2 rest).2) := by
              simp [sequencerRun, sequencerStep]
            rw [hrun]
            have hj1 := j1 (by omega)
            have hj2 := j2 (le_refl 2)
            refine ⟨?_, by omega, ?_, ?_, by omega, fun _ => j6 (by omega)⟩
            · intro _
              rw [List.count_cons_of_ne (by decide)]
              exact hj1
            · rw [List.count_cons_of_ne (by decide)]
              omega
            · rw [List.count_cons_self]
              omega
          · obtain ⟨j1, j2, j3, j4, j5, j6⟩ := ih stage
            simpa [sequencerRun, sequencerStep, h1] using
              ⟨j1, j2, j3, j4, j5, j6⟩
      | other =>
          obtain ⟨j1, j2, j3, j4, j5, j6⟩ := ih stage
          simpa [sequencerRun, sequencerStep] using
            ⟨j1, j2, j3, j4, j5, j6⟩

/-- C9: in the manual-trigger variant (the key handler of main in
src/Homman.py, embedded as `sequencerStep`), along every key sequence from
stage 0 each impulse is applied at most once and the final stage never
exceeds 2; stepwise, stage 2 is terminal, the stage is monotone
(one-directional), a step that applies no impulse leaves the stage unchanged
(wrong-stage commands are no-ops), the injection impulse is applied exactly
on a key-1 command in stage 0 (moving to stage 1), and the circularization
impulse exactly on a key-2 command in stage 1 (moving to stage 2). -/
theorem manual_sequencer_correct (ks : List Key) (stage : ℕ)
    (k : Key) :
    (sequencerRun 0 ks).2.count Impulse.injection ≤ 1 ∧
    (sequencerRun 0 ks).2.count Impulse.circularization ≤ 1 ∧
    (sequencerRun 0 ks).1 ≤ 2 ∧
    sequencerStep 2 k = (2, none) ∧
    stage ≤ (sequencerStep stage k).1 ∧
    ((sequencerStep stage k).2 = none →
      (sequencerStep stage k).1 = stage) ∧
    ((sequencerStep stage k).2 = some Impulse.injection →
      k = Key.k1 ∧ stage = 0 ∧ (sequencerStep stage k).1 = 1) ∧
    ((sequencerStep stage k).2 = some Impulse.circularization →
      k = Key.k2 ∧ stage = 1 ∧ (sequencerStep stage k).1 = 2) := by
  obtain ⟨j1, j2, j3, j4, j5, j6⟩ := sequencerRun_inv ks 0
  refine ⟨j3, j4, j6 (by omega), ?_, ?_, ?_, ?_, ?_⟩
  · cases k <;> simp [sequencerStep]
  · cases k with
    | k1 => by_cases h : stage = 0 <;> simp [sequencerStep, h]
    | k2 => by_cases h : stage = 1 <;> simp [sequencerStep, h]
    | other => simp [sequencerStep]
  · cases k with
    | k1 => by_cases h : stage = 0 <;> simp [sequencerStep, h]
    | k2 => by_cases h : stage = 1 <;> simp [sequencerStep, h]
    | other => simp [sequencerStep]
  · cases k with
    | k1 => by_cases h : stage = 0 <;> simp [sequencerStep, h]
    | k2 => by_cases h : stage = 1 <;> simp [sequencerStep, h]
    | other => simp [sequencerStep]
  · cases k with
    | k1 => by_cases h : stage = 0 <;> simp [sequencerStep, h]
    | k2 => by_cases h : stage = 1 <;> simp [sequencerStep, h]
    | other => simp [sequencerStep]

end Homman

namespace Rocketv1

end Rocketv1

namespace Homman

/-- Core comparison behind the Hohmann delta signs: for `0 < x < y` the
periapsis vis-viva argument at `x` exceeds the circular-speed argument at
`x`, and the apoapsis vis-viva argument at `y` is below the circular-speed
argument at `y`. -/
theorem key_ineq (mu x y : ℝ) (hmu : 0 < mu) (hx : 0 < x) (hy : 0 < y)
    (hxy : x < y) :
    mu / x < mu * (2 / x - 1 / ((x + y) / 2)) ∧
    mu * (2 / y - 1 / ((x + y) / 2)) < mu / y := by
  have hxy2 : 0 < x + y := by linarith
  have e : 1 / ((x + y) / 2) = 2 / (x + y) := one_div_div (x + y) 2
  rw [e]
  constructor
  · have h1 : 2 / (x + y) < 1 / x := by
      rw [div_lt_div_iff₀ hxy2 hx]
      linarith
    have h2 : mu / x = mu * (1 / x) := by ring
    have h3 : 2 / x = 2 * (1 / x) := by ring
    rw [h2]
    exact mul_lt_mul_of_pos_left (by linarith) hmu
  · have h1 : 1 / y < 2 / (x + y) := by
      rw [div_lt_div_iff₀ hy hxy2]
      linarith
    have h2 : mu / y = mu * (1 / y) := by ring
    have h3 : 2 / y = 2 * (1 / y) := by ring
    rw [h2]
    exact mul_lt_mul_of_pos_left (by linarith) hmu

/-- The argument of the transfer-orbit square root is non-negative for any
positive radii, so the square roots in `calculate_hohmann_deltas` are
well-behaved. -/
theorem transfer_arg_nonneg (mu u w : ℝ) (hmu : 0 < mu) (hu : 0 < u)
    (hw : 0 < w) :
    0 ≤ mu * (2 / u - 1 / ((u + w) / 2)) := by
  have huw : 0 < u + w := by linarith
  have e : 1 / ((u + w) / 2) = 2 / (u + w) := one_div_div (u + w) 2
  rw [e]
  have h1 : 2 / (u + w) ≤ 2 / u := by
    apply div_le_div_of_nonneg_left (by norm_num) hu
    linarith
  exact mul_nonneg hmu.le (by linarith)

/-- C7: for strictly positive `mu` and radii, an outward transfer
(`r_inner < r_outer`) has `dv1 > 0` and `dv2 > 0`, and a strictly
decreasing transfer (`r_outer < r_inner`) has `dv1 < 0` and `dv2 < 0`. -/
theorem hohmann_deltas_signs (mu r_inner r_outer : ℝ) (hmu : 0 < mu)
    (hi : 0 < r_inner) (ho : 0 < r_outer) :
    (r_inner < r_outer →
      0 < (calculate_hohmann_deltas mu r_inner r_outer).1 ∧
      0 < (calculate_hohmann_deltas mu r_inner r_outer).2) ∧
    (r_outer < r_inner →
      (calculate_hohmann_deltas mu r_inner r_outer).1 < 0 ∧
      (calculate_hohmann_deltas mu r_inner r_outer).2 < 0) := by
  simp only [calculate_hohmann_deltas]
  constructor
  · intro h
    obtain ⟨h1, h2⟩ := key_ineq mu r_inner r_outer hmu hi ho h
    constructor
    · have hs := Real.sqrt_lt_sqrt (div_nonneg hmu.le hi.le) h1
      linarith
    · have harg := transfer_arg_nonneg mu r_outer r_inner hmu ho hi
      rw [add_comm r_outer r_inner] at harg
      have hs := Real.sqrt_lt_sqrt harg h2
      linarith
  · intro h
    obtain ⟨h1, h2⟩ := key_ineq mu r_outer r_inner hmu ho hi h
    rw [add_comm r_outer r_inner] at h1 h2
    constructor
    · have harg := transfer_arg_nonneg mu r_inner r_outer hmu hi ho
      have hs := Real.sqrt_lt_sqrt harg h2
      linarith
    · have hs := Real.sqrt_lt_sqrt (div_nonneg hmu.le ho.le) h1
      linarith

/-- Witness for C7 at `mu = 1`, `r_inner = 1`, `r_outer = 4`. -/
theorem hohmann_deltas_signs_witness :
    ((1 : ℝ) < 4 →
      0 < (calculate_hohmann_deltas 1 1 4).1 ∧
      0 < (calculate_hohmann_deltas 1 1 4).2) ∧
    ((4 : ℝ) < 1 →
      (calculate_hohmann_deltas 1 1 4).1 < 0 ∧
      (calculate_hohmann_deltas 1 1 4).2 < 0) :=
  hohmann_deltas_signs 1 1 4 (by norm_num) (by norm_num) (by norm_num)

/-- At the source constants, `dv1 = sqrt(15000) - 100` (the circular speed
`sqrt(1000000/100)` is exactly 100). -/
theorem hohmann_dv1_value : (calculate_hohmann_deltas MU R_INNER R_OUTER).1 =
    Real.sqrt 15000 - 100 := by
  simp only [calculate_hohmann_deltas, MU, R_INNER, R_OUTER]
  norm_num
  rw [show (10000 : ℝ) = 100 ^ 2 by norm_num, Real.sqrt_sq (by norm_num)]

/-- At the source constants, `dv2 = sqrt(10000/3) - sqrt(5000/3)`. -/
theorem hohmann_dv2_value : (calculate_hohmann_deltas MU R_INNER R_OUTER).2 =
    Real.sqrt (10000 / 3) - Real.sqrt (5000 / 3) := by
  simp only [calculate_hohmann_deltas, MU, R_INNER, R_OUTER]
  norm_num

/-- `122.4 < sqrt 15000 < 122.5`. -/
theorem sqrt_15000_bounds :
    (1224 / 10 : ℝ) < Real.sqrt 15000 ∧ Real.sqrt 15000 < 1225 / 10 := by
  constructor
  · rw [show (1224 / 10 : ℝ) = Real.sqrt ((1224 / 10) ^ 2) by
      rw [Real.sqrt_sq (by norm_num)]]
    exact Real.sqrt_lt_sqrt (by positivity) (by norm_num)
  · rw [Real.sqrt_lt' (by norm_num)]
    norm_num

/-- `57.73 < sqrt (10000/3) < 57.74`. -/
theorem sqrt_10000div3_bounds :
    (5773 / 100 : ℝ) < Real.sqrt (10000 / 3) ∧
    Real.sqrt (10000 / 3) < 5774 / 100 := by
  constructor
  · rw [show (5773 / 100 : ℝ) = Real.sqrt ((5773 / 100) ^ 2) by
      rw [Real.sqrt_sq (by norm_num)]]
    exact Real.sqrt_lt_sqrt (by positivity) (by norm_num)
  · rw [Real.sqrt_lt' (by norm_num)]
    norm_num

/-- `40.82 < sqrt (5000/3) < 40.83`. -/
theorem sqrt_5000div3_bounds :
    (4082 / 100 : ℝ) < Real.sqrt (5000 / 3) ∧
    Real.sqrt (5000 / 3) < 4083 / 100 := by
  constructor
  · rw [show (4082 / 100 : ℝ) = Real.sqrt ((4082 / 100) ^ 2) by
      rw [Real.sqrt_sq (by norm_num)]]
    exact Real.sqrt_lt_sqrt (by positivity) (by norm_num)
  · rw [Real.sqrt_lt' (by norm_num)]
    norm_num

/-- C2 counterexample: at the source constants the computed `dv1` is more
than 50 away from the spec's claimed `≈ 76.0`, and the computed `dv2` is
more than 18 away from the claimed `≈ 35.2`; the claimed figures are false
under any reasonable reading of "approximately". -/
theorem hohmann_deltas_spec_figures_cex :
    50 < |(calculate_hohmann_deltas MU R_INNER R_OUTER).1 - 76| ∧
    18 < |(calculate_hohmann_deltas MU R_INNER R_OUTER).2 - 352 / 10| := by
  obtain ⟨l1, u1⟩ := sqrt_15000_bounds
  obtain ⟨l2, u2⟩ := sqrt_10000div3_bounds
  obtain ⟨l3, u3⟩ := sqrt_5000div3_bounds
  rw [hohmann_dv1_value, hohmann_dv2_value]
  constructor
  · rw [abs_of_neg (by linarith)]
    linarith
  · rw [abs_of_neg (by linarith)]
    linarith

/-- C2 (amended): for `mu = 1000000`, `r_inner = 100`, `r_outer = 300` the
Hohmann computation returns `dv1 ≈ 22.47` (strictly between 22.4 and 22.5)
and `dv2 ≈ 16.91` (strictly between 16.9 and 17.0), and these agree exactly
with the closed-form vis-viva solution
`dv1 = sqrt(mu*(2/r_inner - 2/(r_inner+r_outer))) - sqrt(mu/r_inner)`,
`dv2 = sqrt(mu/r_outer) - sqrt(mu*(2/r_outer - 2/(r_inner+r_outer)))`. -/
theorem hohmann_deltas_values :
    (224 / 10 : ℝ) < (calculate_hohmann_deltas MU R_INNER R_OUTER).1 ∧
    (calculate_hohmann_deltas MU R_INNER R_OUTER).1 < 225 / 10 ∧
    (169 / 10 : ℝ) < (calculate_hohmann_deltas MU R_INNER R_OUTER).2 ∧
    (calculate_hohmann_deltas MU R_INNER R_OUTER).2 < 17 ∧
    calculate_hohmann_deltas MU R_INNER R_OUTER =
      hohmann_deltas_closed_form MU R_INNER R_OUTER := by
  obtain ⟨l1, u1⟩ := sqrt_15000_bounds
  obtain ⟨l2, u2⟩ := sqrt_10000div3_bounds
  obtain ⟨l3, u3⟩ := sqrt_5000div3_bounds
  refine ⟨?_, ?_, ?_, ?_, ?_⟩
  · rw [hohmann_dv1_value]
    linarith
  · rw [hohmann_dv1_value]
    linarith
  · rw [hohmann_dv2_value]
    linarith
  · rw [hohmann_dv2_value]
    linarith
  · simp only [calculate_hohmann_deltas, hohmann_deltas_closed_form, MU,
      R_INNER, R_OUTER, Prod.mk.injEq]
    norm_num

/-- C8: for any spacecraft with nonzero speed, `apply_prograde_impulse dv`
succeeds and adds `dv` times the velocity's unit vector to the velocity:
position and trail are unchanged, each velocity component gains
`component / |v| * dv`, the new speed equals `|v| + dv` whenever
`dv >= -|v|`, and for `dv > -|v|` the new velocity is a positive scalar
multiple of the old one (direction preserved). -/
theorem apply_prograde_impulse_spec (s : Spacecraft) (dv : ℝ)
    (hv : 0 < s.vx ^ 2 + s.vy ^ 2) :
    ∃ s2, s.apply_prograde_impulse dv = some s2 ∧
      s2.x = s.x ∧ s2.y = s.y ∧ s2.orbit_path = s.orbit_path ∧
      s2.vx = s.vx + s.vx / Real.sqrt (s.vx ^ 2 + s.vy ^ 2) * dv ∧
      s2.vy = s.vy + s.vy / Real.sqrt (s.vx ^ 2 + s.vy ^ 2) * dv ∧
      (-Real.sqrt (s.vx ^ 2 + s.vy ^ 2) ≤ dv →
        Real.sqrt (s2.vx ^ 2 + s2.vy ^ 2) =
          Real.sqrt (s.vx ^ 2 + s.vy ^ 2) + dv) ∧
      (-Real.sqrt (s.vx ^ 2 + s.vy ^ 2) < dv →
        ∃ c : ℝ, 0 < c ∧ s2.vx = c * s.vx ∧ s2.vy = c * s.vy) := by
  have hmpos : 0 < Real.sqrt (s.vx ^ 2 + s.vy ^ 2) := Real.sqrt_pos.mpr hv
  set m := Real.sqrt (s.vx ^ 2 + s.vy ^ 2) with hm
  have hmne : m ≠ 0 := ne_of_gt hmpos
  have hmsq : m ^ 2 = s.vx ^ 2 + s.vy ^ 2 := Real.sq_sqrt hv.le
  refine ⟨{ s with vx := s.vx + s.vx / m * dv, vy := s.vy + s.vy / m * dv },
    ?_, rfl, rfl, rfl, rfl, rfl, ?_, ?_⟩
  · simp only [Spacecraft.apply_prograde_impulse, ← hm]
    rw [if_neg hmne]
  · intro hge
    show Real.sqrt ((s.vx + s.vx / m * dv) ^ 2 + (s.vy + s.vy / m * dv) ^ 2) =
      m + dv
    have key : (s.vx + s.vx / m * dv) ^ 2 + (s.vy + s.vy / m * dv) ^ 2 =
        (m + dv) ^ 2 := by
      field_simp
      linear_combination (-(m + dv) ^ 2) * hmsq
    rw [key, Real.sqrt_sq (by linarith)]
  · intro hgt
    refine ⟨(m + dv) / m, div_pos (by linarith) hmpos, ?_, ?_⟩
    · show s.vx + s.vx / m * dv = (m + dv) / m * s.vx
      field_simp
      ring
    · show s.vy + s.vy / m * dv = (m + dv) / m * s.vy
      field_simp
      ring

/-- Witness for C8 at the spacecraft with velocity `(3, 4)` (speed 5) and
`dv = 1`. -/
theorem apply_prograde_impulse_spec_witness :
    ∃ s2, Spacecraft.apply_prograde_impulse ⟨0, 0, 3, 4, []⟩ 1 = some s2 ∧
      s2.x = 0 ∧ s2.y = 0 ∧ s2.orbit_path = ([] : List (ℝ × ℝ)) ∧
      s2.vx = 3 + 3 / Real.sqrt ((3 : ℝ) ^ 2 + 4 ^ 2) * 1 ∧
      s2.vy = 4 + 4 / Real.sqrt ((3 : ℝ) ^ 2 + 4 ^ 2) * 1 ∧
      (-Real.sqrt ((3 : ℝ) ^ 2 + 4 ^ 2) ≤ 1 →
        Real.sqrt (s2.vx ^ 2 + s2.vy ^ 2) =
          Real.sqrt ((3 : ℝ) ^ 2 + 4 ^ 2) + 1) ∧
      (-Real.sqrt ((3 : ℝ) ^ 2 + 4 ^ 2) < 1 →
        ∃ c : ℝ, 0 < c ∧ s2.vx = c * 3 ∧ s2.vy = c * 4) :=
  apply_prograde_impulse_spec ⟨0, 0, 3, 4, []⟩ 1 (by norm_num)

end Homman

namespace Rocketv1

/-- C1 counterexample: from altitude 1, velocity -10, dry mass 500, fuel 600,
thrust command 0 and `dt = 1/10`, the semi-implicit Euler step makes the
altitude drop below 0 (to -1019/27500), so the claim requires the call to
return `False`; the call clamps altitude and velocity to 0 but returns
`True`. -/
theorem update_physics_landing_returns_true_cex :
    0 < (⟨1, -10, 500, 600, 0⟩ : RocketSimulation).y ∧
    stepAlt ⟨1, -10, 500, 600, 0⟩ 0 (1 / 10) < 0 ∧
    (RocketSimulation.update_physics ⟨1, -10, 500, 600, 0⟩ 0 (1 / 10)).1.y = 0 ∧
    (RocketSimulation.update_physics ⟨1, -10, 500, 600, 0⟩ 0 (1 / 10)).1.v = 0 ∧
    (RocketSimulation.update_physics ⟨1, -10, 500, 600, 0⟩ 0 (1 / 10)).2 = true := by
  norm_num [RocketSimulation.update_physics, stepAlt, stepVel, stepAccel,
    stepFuel, stepThrust, totalMass, GRAVITY_MARS, ATM_DENSITY_MARS, ISP, G0,
    max_thrust, area, cd]

/-- C1 (amended): for every state with strictly positive altitude, if the
semi-implicit Euler update drives the altitude strictly below 0, then that
call clamps the altitude to exactly 0, sets the velocity to exactly 0, and
returns `True` (still-flying); not-flying (`False`) is first reported by the
next `update_physics` call. -/
theorem update_physics_landing_clamp (s : RocketSimulation)
    (u_cmd dt u2 dt2 : ℚ) (hy : 0 < s.y) (hlt : stepAlt s u_cmd dt < 0) :
    (s.update_physics u_cmd dt).1.y = 0 ∧
    (s.update_physics u_cmd dt).1.v = 0 ∧
    (s.update_physics u_cmd dt).2 = true ∧
    ((s.update_physics u_cmd dt).1.update_physics u2 dt2).2 = false := by
  have h1 : ¬s.y ≤ 0 := not_le.mpr hy
  simp only [RocketSimulation.update_physics, if_neg h1, if_pos hlt]
  simp

/-- Witness for C1's amended theorem at the concrete descent state of the
counterexample. -/
theorem update_physics_landing_clamp_witness :
    (RocketSimulation.update_physics ⟨1, -10, 500, 600, 0⟩ 0 (1 / 10)).1.y = 0 ∧
    (RocketSimulation.update_physics ⟨1, -10, 500, 600, 0⟩ 0 (1 / 10)).1.v = 0 ∧
    (RocketSimulation.update_physics ⟨1, -10, 500, 600, 0⟩ 0 (1 / 10)).2 = true ∧
    ((RocketSimulation.update_physics ⟨1, -10, 500, 600, 0⟩ 0
        (1 / 10)).1.update_physics 0 1).2 = false :=
  update_physics_landing_clamp ⟨1, -10, 500, 600, 0⟩ 0 (1 / 10) 0 1
    (by norm_num)
    (by norm_num [stepAlt, stepVel, stepAccel, stepFuel, stepThrust, totalMass,
      GRAVITY_MARS, ATM_DENSITY_MARS, ISP, G0, max_thrust, area, cd])

/-- C4 counterexample: the grounded state with altitude 0, fuel 0 and stored
thrust 15000 (reachable by a landing call that exhausts the fuel) enters
`update_physics` with fuel `<= 0`, yet the call leaves the stored thrust at
15000 instead of forcing it to 0: the `y <= 0` early return skips the thrust
update. -/
theorem update_physics_grounded_thrust_cex :
    (⟨0, 0, 500, 0, 15000⟩ : RocketSimulation).m_fuel ≤ 0 ∧
    (0 : ℚ) ≤ 1 / 10 ∧
    (RocketSimulation.update_physics ⟨0, 0, 500, 0, 15000⟩ 20000
      (1 / 10)).1.thrust = 15000 := by
  norm_num [RocketSimulation.update_physics]

/-- C4 (amended): for every descent state with non-negative fuel mass and
every call with `dt >= 0` and arbitrary thrust command, the fuel mass after
the call is at most the fuel mass before it and is never negative; and on any
call where the altitude is strictly positive and the fuel mass entering the
call is 0 (or less), the stored thrust is forced to 0 (a call entering with
altitude `<= 0` leaves every field, the stored thrust included, unchanged). -/
theorem update_physics_fuel_monotone (s : RocketSimulation) (u_cmd dt : ℚ)
    (hf : 0 ≤ s.m_fuel) (hdt : 0 ≤ dt) :
    (s.update_physics u_cmd dt).1.m_fuel ≤ s.m_fuel ∧
    0 ≤ (s.update_physics u_cmd dt).1.m_fuel ∧
    (0 < s.y → s.m_fuel ≤ 0 → (s.update_physics u_cmd dt).1.thrust = 0) := by
  unfold RocketSimulation.update_physics
  by_cases h : s.y ≤ 0
  · simp only [if_pos h]
    exact ⟨le_refl _, hf, fun hy _ => absurd h (not_le.mpr hy)⟩
  · simp only [if_neg h]
    have hthrust : 0 ≤ stepThrust s u_cmd := by
      unfold stepThrust
      split
      · exact le_refl 0
      · exact le_max_left 0 _
    have hburn : 0 ≤ stepThrust s u_cmd / (ISP * G0) * dt :=
      mul_nonneg (div_nonneg hthrust (by norm_num [ISP, G0])) hdt
    have hfuel_le : stepFuel s u_cmd dt ≤ s.m_fuel :=
      max_le hf (by linarith)
    have hfuel_nn : 0 ≤ stepFuel s u_cmd dt := le_max_left 0 _
    have hthrust0 : s.m_fuel ≤ 0 → stepThrust s u_cmd = 0 := by
      intro h0
      unfold stepThrust
      exact if_pos h0
    constructor
    · split <;> exact hfuel_le
    constructor
    · split <;> exact hfuel_nn
    · intro _ h0
      split <;> exact hthrust0 h0

/-- Witness for C4's amended theorem at the initial state of `main`
(altitude 1000, velocity -10, dry mass 500, fuel 600). -/
theorem update_physics_fuel_monotone_witness :
    (RocketSimulation.update_physics ⟨1000, -10, 500, 600, 0⟩ 14000
        (1 / 10)).1.m_fuel ≤ (⟨1000, -10, 500, 600, 0⟩ : RocketSimulation).m_fuel ∧
    0 ≤ (RocketSimulation.update_physics ⟨1000, -10, 500, 600, 0⟩ 14000
        (1 / 10)).1.m_fuel ∧
    (0 < (⟨1000, -10, 500, 600, 0⟩ : RocketSimulation).y →
      (⟨1000, -10, 500, 600, 0⟩ : RocketSimulation).m_fuel ≤ 0 →
      (RocketSimulation.update_physics ⟨1000, -10, 500, 600, 0⟩ 14000
        (1 / 10)).1.thrust = 0) :=
  update_physics_fuel_monotone ⟨1000, -10, 500, 600, 0⟩ 14000 (1 / 10)
    (by norm_num) (by norm_num)

/-- C5: after every `PIDController.compute` call with `dt > 0`, from any
controller state, the accumulated integral term of the returned state lies
within the fixed symmetric clamp bounds `[-100, 100]`. -/
theorem pid_integral_clamped (p : PIDController) (current_val dt : ℚ)
    (hdt : 0 < dt) :
    ∃ out p2, p.compute current_val dt = some (out, p2) ∧
      -100 ≤ p2.integral ∧ p2.integral ≤ 100 := by
  have h : dt ≠ 0 := ne_of_gt hdt
  refine ⟨p.kp * (p.setpoint - current_val) +
      p.ki * max (-100) (min (p.integral + (p.setpoint - current_val) * dt) 100) +
      p.kd * ((p.setpoint - current_val - p.prev_error) / dt),
    { p with
        integral :=
          max (-100) (min (p.integral + (p.setpoint - current_val) * dt) 100)
        prev_error := p.setpoint - current_val },
    ?_, le_max_left _ _, max_le (by norm_num) (min_le_right _ _)⟩
  simp [PIDController.compute, h]

/-- Witness for C5 at the descent scenario's controller gains
(`kp=1200, ki=20, kd=800, setpoint=-2`) with a fresh state. -/
theorem pid_integral_clamped_witness :
    ∃ out p2, PIDController.compute ⟨1200, 20, 800, -2, 0, 0⟩ 5 1 =
        some (out, p2) ∧ -100 ≤ p2.integral ∧ p2.integral ≤ 100 :=
  pid_integral_clamped ⟨1200, 20, 800, -2, 0, 0⟩ 5 1 (by norm_num)

/-- C6: from any descent state whose altitude is already `<= 0`, every
subsequent sequence of `update_physics` calls — with arbitrary thrust
commands and arbitrary `dt` — leaves the state (altitude, velocity, dry
mass, fuel mass, stored thrust) identically unchanged and every call
returns `False` (not-flying). -/
theorem update_physics_grounded_frozen (s : RocketSimulation)
    (calls : List (ℚ × ℚ)) (hy : s.y ≤ 0) :
    (runPhysics s calls).1 = s ∧
    ∀ b ∈ (runPhysics s calls).2, b = false := by
  induction calls with
  | nil => simp [runPhysics]
  | cons c rest ih =>
      have hstep : s.update_physics c.1 c.2 = (s, false) := by
        unfold RocketSimulation.update_physics
        exact if_pos hy
      refine ⟨?_, ?_⟩
      · show (runPhysics (s.update_physics c.1 c.2).1 rest).1 = s
        rw [hstep]
        exact ih.1
      · intro b hb
        simp only [runPhysics, hstep, List.mem_cons] at hb
        rcases hb with hb | hb
        · exact hb
        · exact ih.2 b hb

/-- Witness for C6: a grounded state is unchanged and reports `False` across
a two-call sequence with a full-throttle command. -/
theorem update_physics_grounded_frozen_witness :
    (runPhysics ⟨0, -5, 500, 100, 0⟩ [(15000, 1 / 10), (0, 1)]).1 =
      (⟨0, -5, 500, 100, 0⟩ : RocketSimulation) ∧
    ∀ b ∈ (runPhysics ⟨0, -5, 500, 100, 0⟩ [(15000, 1 / 10), (0, 1)]).2,
      b = false :=
  update_physics_grounded_frozen ⟨0, -5, 500, 100, 0⟩ [(15000, 1 / 10), (0, 1)]
    (by norm_num)

end Rocketv1

/-- C3: the core performs no input validation.  A `PIDController.compute`
call with `dt = 0` hits an unguarded division by zero (Python raises
`ZeroDivisionError`, embedded as `none`); a call with negative `dt = -1` is
silently accepted and produces a normal output rather than any error; and
`apply_prograde_impulse` at zero velocity magnitude hits an unguarded
division by zero (embedded as `none`).  The planner
`calculate_hohmann_deltas` takes no radius arguments in the source at all,
so it cannot validate radii.  None of these caller errors is rejected via
an explicit error result or assertion, contrary to the claim. -/
theorem no_input_validation :
    Rocketv1.PIDController.compute ⟨1200, 20, 800, -2, 0, 0⟩ 5 0 = none ∧
    (∃ r, Rocketv1.PIDController.compute ⟨1200, 20, 800, -2, 0, 0⟩ 5 (-1) =
      some r) ∧
    Homman.Spacecraft.apply_prograde_impulse ⟨400, 300, 0, 0, []⟩ 76 =
      none := by
  refine ⟨?_, ⟨?_, ?_⟩, ?_⟩
  · simp [Rocketv1.PIDController.compute]
  · exact ((Rocketv1.PIDController.compute ⟨1200, 20, 800, -2, 0, 0⟩ 5
      (-1)).get (by simp [Rocketv1.PIDController.compute]))
  · simp [Rocketv1.PIDController.compute]
  · simp [Homman.Spacecraft.apply_prograde_impulse]
